import Mathlib

/-!
Verification of the deep-sight image-processing pipeline: a shallow embedding
of the batch-processing / progress-persistence subsystem, the OCR extraction
cascade, the LLM translation agent, and the per-image pipeline orchestrator,
together with theorems settling the specified properties.

Source files embedded:
- `src/processors/llm_agent.py` (`LLMAgent.translate_text`, `check_connection`)
- `src/processors/text_extractor.py` (`TextExtractor`)
- `src/processors/processor.py` (`ImageProcessorOrchestrator.process_image`)
- `src/processors/batch_processor.py` (`BatchProcessor`)
- `src/models/image_data.py` (data model)
-/

namespace DeepSight

/-- A Python exception, abstracted to the distinctions the code observes. -/
inductive PyErr where
  | typeError
  | valueError (msg : String)
  | timeout
  | connectionError
  | other (msg : String)
deriving DecidableEq, Repr

/-! ## LLM agent: `LLMAgent.translate_text` (llm_agent.py lines 339-477) -/

/-- One HTTP request issued by the agent: the `GET /api/tags` connection probe
performed by `check_connection`, or the `POST /api/generate` translation
request. -/
inductive NetCall where
  | tags
  | generate
deriving DecidableEq, Repr

/-- Outcome of the `POST /api/generate` request, as the `requests` library
reports it to `translate_text`: an HTTP status with the parsed `response`
field of the JSON body, a timeout, a connection error, or some other
exception. -/
inductive HttpOutcome where
  | ok (status : Nat) (body : String)
  | timeout
  | connError
  | exc (msg : String)
deriving DecidableEq, Repr

/-- Environment of one `LLMAgent` call: the configured model name, the result
of the `check_connection` probe (`True` exactly when `GET /api/tags` returns
status 200; any exception yields `False`), and the outcome the network would
give to a `POST /api/generate` request. -/
structure OllamaEnv where
  model : String
  connectionOk : Bool
  generateOutcome : HttpOutcome
deriving DecidableEq, Repr

/-- The dictionary returned by `LLMAgent.translate_text`. The empty-input
branch omits the `model` and `error` keys, hence the `Option` fields. -/
structure TransResult where
  original_text : String
  translated_text : String
  target_language : String
  model : Option String
  success : Bool
  error : Option String
deriving DecidableEq, Repr

/-- Python `str.strip()`: remove leading and trailing whitespace. Defined
structurally over the character list so that it evaluates inside the
kernel. -/
def pyStrip (s : String) : String :=
  String.mk (((s.toList.dropWhile Char.isWhitespace).reverse.dropWhile
    Char.isWhitespace).reverse)

/-- The translation prompt built by `translate_text` (llm_agent.py lines
376-388): target language, context, scene and the text to translate are all
interpolated into the prompt. -/
def translationPrompt (target_language text text_context scene : String) : String :=
  "Translate the following text to " ++ target_language ++ ". \n" ++
  "Only provide the translation, no explanations or additional text.\n\nContext:\n" ++
  text_context ++ "\n\nScene:\n" ++ scene ++ "\n\nText to translate:\n" ++ text ++
  "\n\nTranslation:"

/-- Embedding of `LLMAgent.translate_text(self, target_language, text,
text_context, scene)` (llm_agent.py lines 339-463). Returns the result
dictionary together with the list of HTTP requests issued, in order. The
body first calls `check_connection` (one `GET /api/tags` request), then
short-circuits on empty or whitespace-only `text`, then issues the
`POST /api/generate` request; every failure branch returns `success = False`
with `translated_text` falling back to the original input. -/
def translate_text (env : OllamaEnv) (target_language text text_context scene : String) :
    TransResult × List NetCall :=
  let _prompt := translationPrompt target_language text text_context scene
  if env.connectionOk = false then
    ({ original_text := text, translated_text := text, target_language := target_language,
       model := some env.model, success := false,
       error := some "Ollama service not available" }, [NetCall.tags])
  else if text = "" ∨ pyStrip text = "" then
    ({ original_text := text, translated_text := "", target_language := target_language,
       model := none, success := true, error := none }, [NetCall.tags])
  else
    match env.generateOutcome with
    | HttpOutcome.ok 200 body =>
        ({ original_text := text, translated_text := pyStrip body,
           target_language := target_language, model := some env.model,
           success := true, error := none }, [NetCall.tags, NetCall.generate])
    | HttpOutcome.ok status _ =>
        ({ original_text := text, translated_text := text,
           target_language := target_language, model := some env.model,
           success := false, error := some ("Status code: " ++ toString status) },
         [NetCall.tags, NetCall.generate])
    | HttpOutcome.timeout =>
        ({ original_text := text, translated_text := text,
           target_language := target_language, model := some env.model,
           success := false, error := some "Request timed out" },
         [NetCall.tags, NetCall.generate])
    | HttpOutcome.connError =>
        ({ original_text := text, translated_text := text,
           target_language := target_language, model := some env.model,
           success := false, error := some "Connection error" },
         [NetCall.tags, NetCall.generate])
    | HttpOutcome.exc msg =>
        ({ original_text := text, translated_text := text,
           target_language := target_language, model := some env.model,
           success := false, error := some msg },
         [NetCall.tags, NetCall.generate])

/-- The `POST /api/generate` request fails: non-200 status, timeout,
connection error, or any other exception. -/
def generateFailed : HttpOutcome → Bool
  | HttpOutcome.ok status _ => status != 200
  | _ => true

/-! ## Text extraction cascade: `TextExtractor` (text_extractor.py) -/

/-- The fallback OCR engine selected by `TextExtractor._initialize_fallback`:
`keras-ocr` if importable, else `tesseract` if available. `fallback_method`
is `None` when neither is. -/
inductive FallbackMethod where
  | kerasOcr
  | tesseract
deriving DecidableEq, Repr

/-- The identifying string the code stores in `self.fallback_method`. -/
def fallbackName : FallbackMethod → String
  | FallbackMethod.kerasOcr => "keras-ocr"
  | FallbackMethod.tesseract => "tesseract"

/-- Capability state of a `TextExtractor` instance, resolved once in
`__init__`/`_initialize_models`: whether `self.craft_model` and
`self.crnn_model` are loaded (each can fail to load independently), and which
fallback pipeline, if any, was initialized. `fallback_method = none` models
the Python attribute holding `None`. -/
structure ExtractorState where
  craft_model : Bool
  crnn_model : Bool
  fallback_method : Option FallbackMethod
deriving DecidableEq, Repr

instance {ε α : Type} [DecidableEq ε] [DecidableEq α] : DecidableEq (Except ε α) :=
  fun a b =>
    match a, b with
    | Except.error x, Except.error y =>
        if h : x = y then isTrue (by rw [h])
        else isFalse (by intro hh; cases hh; exact h rfl)
    | Except.ok x, Except.ok y =>
        if h : x = y then isTrue (by rw [h])
        else isFalse (by intro hh; cases hh; exact h rfl)
    | Except.error _, Except.ok _ => isFalse (fun h => Except.noConfusion h)
    | Except.ok _, Except.error _ => isFalse (fun h => Except.noConfusion h)

/-- Per-call environment of one extraction: whether the image file exists,
the result of `_preprocess_image` (decode + BGR-to-RGB + bound the longer
side to 1024; `none` models the `None` returned when `cv2.imread` fails or
any preprocessing step raises, `some (h, w)` the preprocessed image's
dimensions), the outcomes of the CRAFT and CRNN `predict` calls (`ok b` with
`b` recording whether the prediction list is non-empty, or an exception),
the keras-ocr recognition outcome (list of recognized words) and the
tesseract outcome (raw recognized string), and an optional unexpected
exception raised anywhere inside `extract_text`'s try-block. -/
structure OcrEnv where
  fileExists : Bool
  preprocess : Option (Nat × Nat)
  craftPredict : Except PyErr Bool
  crnnPredict : Except PyErr Bool
  kerasResult : Except PyErr (List String)
  tessResult : Except PyErr String
  unexpected : Option PyErr
deriving DecidableEq, Repr

/-- Embedding of `TextExtractor._detect_text_regions` (lines 171-208): if
the CRAFT model is absent, the full-image region; otherwise, on a non-empty
prediction the four image quadrants, on an empty prediction or any exception
the full-image region. Regions are `(x1, y1, x2, y2)` rectangles. -/
def detect_text_regions (s : ExtractorState) (env : OcrEnv) (h w : Nat) :
    List (Nat × Nat × Nat × Nat) :=
  if s.craft_model = false then [(0, 0, w, h)]
  else
    match env.craftPredict with
    | Except.error _ => [(0, 0, w, h)]
    | Except.ok nonempty =>
        if nonempty then
          [(0, 0, w / 2, h / 2), (w / 2, 0, w, h / 2),
           (0, h / 2, w / 2, h), (w / 2, h / 2, w, h)]
        else [(0, 0, w, h)]

/-- Embedding of `TextExtractor._recognize_text` (lines 210-243): empty
string when the CRNN model is absent or its `predict` raises; otherwise the
placeholder decoding of `_decode_predictions` — the fixed string
`"extracted_text"` on a non-empty prediction, `""` otherwise. -/
def recognize_text (s : ExtractorState) (env : OcrEnv) : String :=
  if s.crnn_model = false then ""
  else
    match env.crnnPredict with
    | Except.error _ => ""
    | Except.ok nonempty => if nonempty then "extracted_text" else ""

/-- Embedding of `TextExtractor._extract_with_tensorflow` (lines 290-311):
recognize each detected region independently, keep non-whitespace results
stripped, join with a single space. A region whose slice is empty
(`region.size == 0`) contributes nothing. -/
def extract_with_tensorflow (s : ExtractorState) (env : OcrEnv) (h w : Nat) : String :=
  let regions := detect_text_regions s env h w
  let texts := regions.filterMap (fun r =>
    if r.2.1 < r.2.2.2 ∧ r.1 < r.2.2.1 then
      let t := recognize_text s env
      if pyStrip t ≠ "" then some (pyStrip t) else none
    else none)
  String.intercalate " " texts

/-- Embedding of `TextExtractor._extract_with_fallback` together with
`_extract_with_keras_ocr` and `_extract_with_tesseract` (lines 313-372):
empty string when no fallback pipeline is available or the engine raises;
keras-ocr joins the recognized words with spaces; tesseract strips its raw
output. -/
def extract_with_fallback (s : ExtractorState) (env : OcrEnv) : String :=
  match s.fallback_method with
  | none => ""
  | some FallbackMethod.kerasOcr =>
      match env.kerasResult with
      | Except.error _ => ""
      | Except.ok texts => String.intercalate " " texts
  | some FallbackMethod.tesseract =>
      match env.tessResult with
      | Except.error _ => ""
      | Except.ok t => pyStrip t

/-- The branch condition on which `extract_text` (line 280) enters the
TensorFlow (Tier 1) path: `self.craft_model is not None or self.crnn_model
is not None` — at least one of the two models loaded. -/
def tier1_selected (s : ExtractorState) : Bool :=
  s.craft_model || s.crnn_model

/-- The try-block of `TextExtractor.extract_text` (lines 268-285), as an
exception-producing computation: missing file and failed preprocessing
return `""`; otherwise either the TensorFlow path or the fallback path runs,
each of which is total. `env.unexpected` models any other exception raised
inside the block. -/
def extract_text_body (s : ExtractorState) (env : OcrEnv) : Except PyErr String :=
  match env.unexpected with
  | some e => Except.error e
  | none =>
      if env.fileExists = false then Except.ok ""
      else
        match env.preprocess with
        | none => Except.ok ""
        | some hw =>
            if tier1_selected s then Except.ok (extract_with_tensorflow s env hw.1 hw.2)
            else Except.ok (extract_with_fallback s env)

/-- Embedding of `TextExtractor.extract_text` (lines 258-288): the try-block
with the catch-all handler that converts any exception into `""`. Total by
construction — extraction never raises to its caller. -/
def extract_text (s : ExtractorState) (env : OcrEnv) (_image_path : String) : String :=
  match extract_text_body s env with
  | Except.ok t => t
  | Except.error _ => ""

/-- The record returned by `TextExtractor.extract_text_with_details`
(lines 374-401). `method_used = none` models the Python value `None`: the
`getattr(self, 'fallback_method', 'none')` default never fires because
`_initialize_models` always sets the attribute, so when no fallback exists
the reported method is the `None` sentinel. -/
structure ExtractDetails where
  text : String
  char_count : Nat
  word_count : Nat
  method_used : Option String
  craft_available : Bool
  crnn_available : Bool
  fallback_available : Bool
deriving DecidableEq, Repr

/-- Python `len(text.split())`: number of maximal non-whitespace runs. -/
def wordCount (text : String) : Nat :=
  ((text.split Char.isWhitespace).filter (fun w => w ≠ "")).length

/-- Embedding of `TextExtractor.extract_text_with_details` (lines 374-401):
wraps `extract_text` and reports counts plus the tier that served the
request — `"tensorflow"` whenever at least one Tier 1 model is loaded,
otherwise the fallback engine's name, or the `None` sentinel. -/
def extract_text_with_details (s : ExtractorState) (env : OcrEnv) (image_path : String) :
    ExtractDetails :=
  let text := extract_text s env image_path
  let method_used : Option String :=
    if s.craft_model = false ∧ s.crnn_model = false then
      (s.fallback_method).map fallbackName
    else some "tensorflow"
  { text := text
    char_count := text.length
    word_count := wordCount text
    method_used := method_used
    craft_available := s.craft_model
    crnn_available := s.crnn_model
    fallback_available := (s.fallback_method).isSome }

/-! ## Data model (models/image_data.py) -/

/-- Embedding of `ImageMetadata` (image_data.py lines 7-13). `image_size` is
the Python dict, empty by default; `processing_time` is abstracted to a
duration value. -/
structure ImageMetadata where
  model_name : String
  datetime : String
  processing_time : Nat := 0
  image_size : List (String × Nat) := []
  original_path : Option String := none
deriving DecidableEq, Repr

/-- Embedding of `ImageData` (image_data.py lines 16-31), with the pydantic
defaults. -/
structure ImageData where
  image_name : String
  extracted_text : String := ""
  translated_text_hindi : String := ""
  translated_text_english : String := ""
  description : String := ""
  description_text : String := ""
  description_scene : String := ""
  description_context : String := ""
  metadata : ImageMetadata
deriving DecidableEq, Repr

/-- Embedding of `BatchProgress` (image_data.py lines 34-57). `status` ranges
over the strings `"pending"`, `"processing"`, `"completed"`, `"failed"`. -/
structure BatchProgress where
  batch_id : String
  folder_path : String
  total_images : Nat
  completed_images : Nat := 0
  failed_images : Nat := 0
  status : String := "pending"
  start_time : Option String := none
  end_time : Option String := none
  processed_files : List String := []
  failed_files : List String := []
deriving DecidableEq, Repr

/-! ## Pipeline orchestrator: `ImageProcessorOrchestrator.process_image`
(processor.py lines 34-124) -/

/-- The structured-description dictionary returned by
`LLMAgent.describe_image`, which catches every exception and so always
returns (llm_agent.py lines 195-272). -/
structure DescribeResult where
  text : String
  description : String
  scene : String
  context : String
  model : String
  success : Bool
  error : Option String
deriving DecidableEq, Repr

/-- Environment of one `process_image` call: the constructed text-extractor
state and its per-call OCR environment, the outcome of
`ImageProcessor.resize_image` (which re-raises on failure, hence `Except`;
success gives the resized path and the `(width, height)` pair), the
description dictionary the vision agent returns, the language agent's
environment, and the wall-clock values read during the call. -/
structure OrchEnv where
  extractor : ExtractorState
  ocr : OcrEnv
  resize : Except PyErr (String × Nat × Nat)
  describe : DescribeResult
  ollama : OllamaEnv
  now : String
  elapsedOk : Nat
  elapsedFail : Nat
deriving DecidableEq, Repr

/-- Characters of the final slash-separated segment of a path. -/
def lastSegment : List Char → List Char → List Char
  | [], acc => acc.reverse
  | c :: cs, acc => if c = '/' then lastSegment cs [] else lastSegment cs (c :: acc)

/-- Python `Path(image_path).name`: the final path component. -/
def pathName (p : String) : String :=
  String.mk (lastSegment p.toList [])

/-- Embedding of the call `self.llm_agent.translate_text(extracted_text,
'hindi')` in `process_image` (processor.py lines 71 and 76).
`LLMAgent.translate_text` declares four required positional parameters
`(target_language, text, text_context, scene)` (llm_agent.py line 339), so
this two-argument call raises `TypeError: translate_text() missing 2
required positional arguments` before the function body runs. -/
def translate_text_two_args (_env : OllamaEnv) (_arg1 _arg2 : String) :
    Except PyErr (TransResult × List NetCall) :=
  Except.error PyErr.typeError

/-- Embedding of `ImageProcessorOrchestrator.process_image` (processor.py
lines 34-124): extraction on the original image, resize, description,
the two translation calls, then assembly of the `ImageData` record; any
exception is caught at the orchestrator boundary and a partial record
(image name plus metadata) is returned instead. Storage persistence
(`_save_to_storage`) catches all its own exceptions and does not affect the
returned record, so it is not modelled. -/
def process_image (env : OrchEnv) (image_path : String) : ImageData :=
  let image_name := pathName image_path
  let attempt : Except PyErr ImageData := do
    let extracted_text := extract_text env.extractor env.ocr image_path
    let resized ← env.resize
    let description_result := env.describe
    let description := description_result.description
    let hindi_result ← translate_text_two_args env.ollama extracted_text "hindi"
    let translated_hindi := hindi_result.1.translated_text
    let english_result ← translate_text_two_args env.ollama extracted_text "english"
    let translated_english := english_result.1.translated_text
    pure { image_name := image_name
           extracted_text := extracted_text
           translated_text_hindi := translated_hindi
           translated_text_english := translated_english
           description := description
           metadata := { model_name := env.ollama.model
                         datetime := env.now
                         processing_time := env.elapsedOk
                         image_size := [("width", resized.2.1), ("height", resized.2.2)]
                         original_path := some image_path } }
  match attempt with
  | Except.ok d => d
  | Except.error _ =>
      { image_name := image_name
        metadata := { model_name := env.ollama.model
                      datetime := env.now
                      processing_time := env.elapsedFail
                      image_size := []
                      original_path := some image_path } }

/-! ## Progress store: `BatchProcessor._load_progress` / `_save_progress`
(batch_processor.py lines 179-204) -/

/-- Content of the per-folder progress file as `yaml.safe_load` sees it:
a key-to-record mapping, an empty document (`safe_load` returns `None`,
which `or {}` turns into the empty dict), or malformed content (a parse
error, or a non-mapping document on which `.keys()` raises — both caught).
`Rec` is the type of per-image result records; hand-edited files may hold
arbitrary records, so it stays abstract. -/
inductive YamlContent (Rec : Type) where
  | mapping (m : List (String × Rec))
  | nullContent
  | malformed (raw : String)
deriving DecidableEq, Repr

/-- Embedding of `BatchProcessor._load_progress` (lines 179-193). The file
system is `none` when the progress file does not exist. Returns the pair
`(set of processed keys, mapping)`; the key set (`set(data.keys())`) is the
duplicate-free key list. Fails soft: missing file, empty document and
malformed content all yield the empty state, and the function is total —
it never raises. -/
def load_progress {Rec : Type} (file : Option (YamlContent Rec)) :
    List String × List (String × Rec) :=
  match file with
  | none => ([], [])
  | some (YamlContent.mapping m) => ((m.map Prod.fst).dedup, m)
  | some YamlContent.nullContent => ([], [])
  | some (YamlContent.malformed _) => ([], [])

/-- Embedding of `BatchProcessor._save_progress` (lines 195-204): a completed
`yaml.dump` overwrites the whole file with the in-memory mapping. -/
def save_progress {Rec : Type} (m : List (String × Rec)) : Option (YamlContent Rec) :=
  some (YamlContent.mapping m)

/-- Python dict assignment `m[k] = v`: replace in place when the key is
present, append otherwise (insertion order preserved). -/
def dictInsert {Rec : Type} (m : List (String × Rec)) (k : String) (v : Rec) :
    List (String × Rec) :=
  if m.any (fun p => p.1 = k) then
    m.map (fun p => if p.1 = k then (k, v) else p)
  else m ++ [(k, v)]

/-! ## Batch coordinator: `BatchProcessor.process_folder` /
`_process_batch_thread` (batch_processor.py lines 43-157) -/

/-- Embedding of `BatchProcessor.process_folder` (lines 43-98) up to the
launch of the background thread. `isDir` is the env's answer to
`folder_path.exists() and folder_path.is_dir()`; `images` is the sorted
enumeration `_get_images_from_folder` returns. Errors are the two
`ValueError`s. On success: the registered `BatchProgress` (status
`"pending"`, `total_images` = full enumeration count, `completed_images`
pre-seeded to the number of already-processed keys), the remaining images
(those not keyed in the progress store), and the loaded mapping handed to
the thread. -/
def process_folder {Rec : Type} (folder batch_id : String) (isDir : Bool)
    (images : List String) (file : Option (YamlContent Rec)) :
    Except String (BatchProgress × List String × List (String × Rec)) :=
  if isDir = false then Except.error ("Invalid folder path: " ++ folder)
  else if images.isEmpty then Except.error ("No images found in folder: " ++ folder)
  else
    let loaded := load_progress file
    let processed_files := loaded.1
    let image_data_map := loaded.2
    let remaining_images := images.filter (fun img => !(processed_files.contains img))
    let batch_progress : BatchProgress :=
      { batch_id := batch_id
        folder_path := folder
        total_images := images.length
        completed_images := processed_files.length
        failed_images := 0
        status := "pending"
        start_time := none
        end_time := none
        processed_files := processed_files
        failed_files := [] }
    Except.ok (batch_progress, remaining_images, image_data_map)

/-- State threaded through the background batch thread: the live
`BatchProgress` record, the in-memory result mapping, the on-disk progress
file (content of the last completed save), the sequence of batch-record
snapshots observable by a status query (one per lock-protected mutation,
oldest first), and the mappings written by the saves performed so far. -/
structure ThreadState (Rec : Type) where
  batch : BatchProgress
  map : List (String × Rec)
  disk : Option (YamlContent Rec)
  obs : List BatchProgress
  saves : List (List (String × Rec))
deriving DecidableEq, Repr

/-- One iteration of the per-image loop in `_process_batch_thread`
(lines 110-138), at 0-based loop index `idx`. `some rec` models
`process_image` returning record `rec`; `none` models an exception inside
the per-image try-block (a per-image failure). On success the record is
stored in the mapping and, when `(idx + 1)` is a multiple of the checkpoint
interval, the mapping is flushed; a failed image only updates the failure
counters — the checkpoint branch is not reached. -/
def processOneImage {Rec : Type} (interval : Nat) (st : ThreadState Rec) (idx : Nat)
    (image_path : String) (outcome : Option Rec) : ThreadState Rec :=
  match outcome with
  | some rec =>
      let b := { st.batch with
                   completed_images := st.batch.completed_images + 1
                   processed_files := st.batch.processed_files ++ [image_path] }
      let m := dictInsert st.map image_path rec
      let doSave := (idx + 1) % interval = 0
      { batch := b
        map := m
        disk := if doSave then save_progress m else st.disk
        obs := st.obs ++ [b]
        saves := st.saves ++ (if doSave then [m] else []) }
  | none =>
      let b := { st.batch with
                   failed_images := st.batch.failed_images + 1
                   failed_files := st.batch.failed_files ++ [image_path] }
      { st with batch := b, obs := st.obs ++ [b] }

/-- The per-image loop of `_process_batch_thread`, from loop index `idx`,
over the remaining images paired with their outcomes. -/
def run_loop {Rec : Type} (interval : Nat) :
    Nat → ThreadState Rec → List (String × Option Rec) → ThreadState Rec
  | _, st, [] => st
  | idx, st, (img, oc) :: rest =>
      run_loop interval (idx + 1) (processOneImage interval st idx img oc) rest

/-- Embedding of `BatchProcessor._process_batch_thread` (lines 100-157) on
its normal path: set status `"processing"` and the start time, run the
per-image loop, perform the final unconditional save, then set status
`"completed"` and the end time. `bp` is the registered record (already
observable as `"pending"`), `m0` the loaded mapping, `disk0` the progress
file on disk at thread start, `outcomes` the per-image outcomes. -/
def process_batch_thread {Rec : Type} (interval : Nat) (bp : BatchProgress)
    (remaining : List String) (m0 : List (String × Rec))
    (disk0 : Option (YamlContent Rec)) (outcomes : List (Option Rec))
    (t_start t_end : String) : ThreadState Rec :=
  let b1 := { bp with status := "processing", start_time := some t_start }
  let st0 : ThreadState Rec :=
    { batch := b1, map := m0, disk := disk0, obs := [bp, b1], saves := [] }
  let st1 := run_loop interval 0 st0 (remaining.zip outcomes)
  let st2 := { st1 with disk := save_progress st1.map, saves := st1.saves ++ [st1.map] }
  let bFinal := { st2.batch with status := "completed", end_time := some t_end }
  { st2 with batch := bFinal, obs := st2.obs ++ [bFinal] }

/-- A whole batch: `process_folder` followed by the background thread. -/
def run_batch {Rec : Type} (interval : Nat) (folder batch_id : String) (isDir : Bool)
    (images : List String) (file : Option (YamlContent Rec))
    (outcomes : List (Option Rec)) (t_start t_end : String) :
    Except String (ThreadState Rec) :=
  match process_folder folder batch_id isDir images file with
  | Except.error e => Except.error e
  | Except.ok (bp, remaining, m0) =>
      Except.ok (process_batch_thread interval bp remaining m0 file outcomes t_start t_end)

/-! ## Theorems -/

/-- Claim C5, as stated, is false: `translate_text` calls `check_connection`
— a `GET /api/tags` network request — before the empty-input check, so an
empty input always issues a network call, and when the connection probe
fails the result is not a success. Concretely, with the service unreachable
and empty input text the result has `success = False`, and even with the
service reachable the call list is non-empty. -/
theorem claim5_empty_input_counterexample :
    (translate_text ⟨"llama3.1:latest", false, HttpOutcome.connError⟩
        "hindi" "" "ctx" "scene").1.success = false
    ∧ (translate_text ⟨"llama3.1:latest", true, HttpOutcome.connError⟩
        "hindi" "" "ctx" "scene").2 ≠ [] := by
  constructor
  · rfl
  · decide

/-- Claim C5 amended: for empty or whitespace-only input text and any target
language, provided the initial connection check succeeds, `translate_text`
returns success with an empty translated string and issues no network call
beyond that connection probe (no `POST /api/generate` request). -/
theorem claim5_empty_input_amended (env : OllamaEnv)
    (target_language text text_context scene : String)
    (hconn : env.connectionOk = true) (hempty : pyStrip text = "") :
    (translate_text env target_language text text_context scene).1.success = true
    ∧ (translate_text env target_language text text_context scene).1.translated_text = ""
    ∧ (translate_text env target_language text text_context scene).2 = [NetCall.tags] := by
  simp [translate_text, hconn, hempty]

/-- Witness for the amended claim C5 at a concrete whitespace-only input. -/
theorem claim5_empty_input_amended_witness :
    (translate_text ⟨"llama3.1:latest", true, HttpOutcome.connError⟩
        "hindi" " " "ctx" "scene").1.success = true
    ∧ (translate_text ⟨"llama3.1:latest", true, HttpOutcome.connError⟩
        "hindi" " " "ctx" "scene").1.translated_text = ""
    ∧ (translate_text ⟨"llama3.1:latest", true, HttpOutcome.connError⟩
        "hindi" " " "ctx" "scene").2 = [NetCall.tags] :=
  claim5_empty_input_amended ⟨"llama3.1:latest", true, HttpOutcome.connError⟩
    "hindi" " " "ctx" "scene" rfl (by decide)

/-- Claim C10: for non-empty input text, every failure mode of
`translate_text` — service unavailable at the connection check, non-200
response, timeout, connection error, or any other exception from the
generate request — yields a non-success result whose `translated_text` is
the original input text. -/
theorem claim10_failure_returns_original (env : OllamaEnv)
    (target_language text text_context scene : String)
    (hne : ¬ (text = "" ∨ pyStrip text = ""))
    (hfail : env.connectionOk = false ∨ generateFailed env.generateOutcome = true) :
    (translate_text env target_language text text_context scene).1.success = false
    ∧ (translate_text env target_language text text_context scene).1.translated_text
        = text := by
  rcases hfail with h | h
  · simp [translate_text, h]
  · cases hc : env.connectionOk with
    | false => simp [translate_text, hc]
    | true =>
        cases hgen : env.generateOutcome with
        | ok status body =>
            have hst : status ≠ 200 := by
              intro hs
              rw [hgen, hs] at h
              simp [generateFailed] at h
            cases status with
            | zero => simp [translate_text, hc, hne, hgen]
            | succ n =>
                simp only [translate_text, hc, Bool.true_eq_false, if_false]
                rw [if_neg hne, hgen]
                have : n + 1 ≠ 200 := hst
                simp [this]
        | timeout => simp [translate_text, hc, hne, hgen]
        | connError => simp [translate_text, hc, hne, hgen]
        | exc msg => simp [translate_text, hc, hne, hgen]

/-- Witness for claim C10: a timed-out translation of a non-empty text. -/
theorem claim10_failure_returns_original_witness :
    (translate_text ⟨"llama3.1:latest", true, HttpOutcome.timeout⟩
        "hindi" "Hello world" "ctx" "scene").1.success = false
    ∧ (translate_text ⟨"llama3.1:latest", true, HttpOutcome.timeout⟩
        "hindi" "Hello world" "ctx" "scene").1.translated_text = "Hello world" :=
  claim10_failure_returns_original ⟨"llama3.1:latest", true, HttpOutcome.timeout⟩
    "hindi" "Hello world" "ctx" "scene" (by decide) (Or.inr rfl)

/-- Claim C7: after a completed save of a mapping, a load on the same
folder's progress file recovers exactly the mapping's key set (and the
records themselves): the returned key list is the duplicate-free key list of
the saved mapping, a key is reported as processed exactly when it is a key
of the mapping, and the returned mapping is the saved one. -/
theorem claim7_save_load_roundtrip {Rec : Type} (m : List (String × Rec)) :
    load_progress (save_progress m) = ((m.map Prod.fst).dedup, m)
    ∧ (∀ k : String, k ∈ (load_progress (save_progress m)).1 ↔ k ∈ m.map Prod.fst) := by
  refine ⟨rfl, fun k => ?_⟩
  simp [load_progress, save_progress, List.mem_dedup]

/-- Claim C9: `_load_progress` fails soft — a missing progress file, an
empty document, and malformed content all produce the empty key set and
empty mapping, and the function is total (it never raises: every branch
returns). -/
theorem claim9_load_fail_soft {Rec : Type} :
    (load_progress none : List String × List (String × Rec)) = ([], [])
    ∧ (load_progress (some YamlContent.nullContent) : List String × List (String × Rec)) = ([], [])
    ∧ (∀ raw : String,
        (load_progress (some (YamlContent.malformed raw)) : List String × List (String × Rec)) = ([], [])) :=
  ⟨rfl, rfl, fun _ => rfl⟩

/-- Claim C4, as stated, is false: Tier 1 does not require both models.
`extract_text` enters the TensorFlow path when `self.craft_model is not None
or self.crnn_model is not None` — at least one, not both. With the detector
loaded but the recognizer load failed (a reachable constructor state, since
the two loads are attempted and caught independently), Tier 1 is still
selected and `extract_text_with_details` reports `"tensorflow"` although
`crnn_model` is absent. -/
theorem claim4_tier1_counterexample :
    tier1_selected ⟨true, false, none⟩ = true
    ∧ (⟨true, false, none⟩ : ExtractorState).crnn_model = false
    ∧ (extract_text_with_details ⟨true, false, none⟩
        ⟨true, some (8, 8), Except.ok true, Except.ok true, Except.ok ["w"],
         Except.ok "t", none⟩ "img.png").method_used = some "tensorflow" :=
  ⟨rfl, rfl, rfl⟩

/-- Claim C4 amended: Tier 1 is selected when at least one of the detector
and recognizer models is loaded (not both required). When both Tier 1 models
are absent and a fallback pipeline is available, extraction never attempts
Tier 1 — it runs the fallback engine whenever the file exists and
preprocessing succeeds — and `extract_with_details` reports the fallback
engine's name; when no tier is available, extraction returns the empty
string and the reported method is the `None` sentinel. Extraction is total
in every case (never raises). -/
theorem claim4_cascade_amended (env : OcrEnv) (p : String) :
    (∀ s : ExtractorState,
        tier1_selected s = true ↔ (s.craft_model = true ∨ s.crnn_model = true))
    ∧ (∀ fm : FallbackMethod,
        tier1_selected ⟨false, false, some fm⟩ = false
        ∧ (env.unexpected = none → env.fileExists = true →
            ∀ hw : Nat × Nat, env.preprocess = some hw →
              extract_text ⟨false, false, some fm⟩ env p
                = extract_with_fallback ⟨false, false, some fm⟩ env)
        ∧ (extract_text_with_details ⟨false, false, some fm⟩ env p).method_used
            = some (fallbackName fm))
    ∧ (extract_text ⟨false, false, none⟩ env p = ""
       ∧ (extract_text_with_details ⟨false, false, none⟩ env p).method_used = none) := by
  obtain ⟨fe, pp, cp, rp, kr, tr, ux⟩ := env
  refine ⟨?_, ?_, ?_, ?_⟩
  · intro s
    simp [tier1_selected, Bool.or_eq_true]
  · intro fm
    refine ⟨rfl, ?_, rfl⟩
    intro hux hfe hw hpp
    subst hux hfe hpp
    rfl
  · cases ux with
    | some e => rfl
    | none =>
        cases fe with
        | false => rfl
        | true =>
            cases pp with
            | none => rfl
            | some hw => simp [extract_text, extract_text_body, tier1_selected,
                extract_with_fallback]
  · rfl

/-- Witness for the amended claim C4: with both Tier 1 models absent and
keras-ocr available, extraction runs the fallback engine and reports its
name. -/
theorem claim4_cascade_amended_witness :
    (∀ s : ExtractorState,
        tier1_selected s = true ↔ (s.craft_model = true ∨ s.crnn_model = true))
    ∧ (∀ fm : FallbackMethod,
        tier1_selected ⟨false, false, some fm⟩ = false
        ∧ ((⟨true, some (8, 8), Except.ok true, Except.ok true, Except.ok ["w"],
              Except.ok "t", none⟩ : OcrEnv).unexpected = none →
           (⟨true, some (8, 8), Except.ok true, Except.ok true, Except.ok ["w"],
              Except.ok "t", none⟩ : OcrEnv).fileExists = true →
            ∀ hw : Nat × Nat,
              (⟨true, some (8, 8), Except.ok true, Except.ok true, Except.ok ["w"],
                Except.ok "t", none⟩ : OcrEnv).preprocess = some hw →
              extract_text ⟨false, false, some fm⟩
                  ⟨true, some (8, 8), Except.ok true, Except.ok true, Except.ok ["w"],
                   Except.ok "t", none⟩ "img.png"
                = extract_with_fallback ⟨false, false, some fm⟩
                    ⟨true, some (8, 8), Except.ok true, Except.ok true, Except.ok ["w"],
                     Except.ok "t", none⟩)
        ∧ (extract_text_with_details ⟨false, false, some fm⟩
             ⟨true, some (8, 8), Except.ok true, Except.ok true, Except.ok ["w"],
              Except.ok "t", none⟩ "img.png").method_used = some (fallbackName fm))
    ∧ (extract_text ⟨false, false, none⟩
         ⟨true, some (8, 8), Except.ok true, Except.ok true, Except.ok ["w"],
          Except.ok "t", none⟩ "img.png" = ""
       ∧ (extract_text_with_details ⟨false, false, none⟩
            ⟨true, some (8, 8), Except.ok true, Except.ok true, Except.ok ["w"],
             Except.ok "t", none⟩ "img.png").method_used = none) :=
  claim4_cascade_amended
    ⟨true, some (8, 8), Except.ok true, Except.ok true, Except.ok ["w"],
     Except.ok "t", none⟩ "img.png"

/-- Claim C8: `extract_text` always returns a string — every exception path
is caught. In particular it returns the empty string when the image file is
missing, when the image is unreadable (preprocessing returns `None`), and
when any unexpected exception is raised inside its try-block. -/
theorem claim8_extract_fail_soft (s : ExtractorState) (env : OcrEnv) (p : String) :
    (env.fileExists = false → extract_text s env p = "")
    ∧ (env.preprocess = none → extract_text s env p = "")
    ∧ (∀ e : PyErr, env.unexpected = some e → extract_text s env p = "") := by
  obtain ⟨fe, pp, cp, rp, kr, tr, ux⟩ := env
  refine ⟨?_, ?_, ?_⟩
  · intro h
    subst h
    cases ux with
    | some e => rfl
    | none => rfl
  · intro h
    subst h
    cases ux with
    | some e => rfl
    | none =>
        cases fe with
        | false => rfl
        | true => rfl
  · intro e h
    subst h
    rfl

/-- Witness for claim C8: a missing file yields the empty string. -/
theorem claim8_extract_fail_soft_witness :
    extract_text ⟨true, true, none⟩
      ⟨false, none, Except.ok true, Except.ok true, Except.ok [], Except.ok "", none⟩
      "missing.jpg" = "" :=
  (claim8_extract_fail_soft ⟨true, true, none⟩
    ⟨false, none, Except.ok true, Except.ok true, Except.ok [], Except.ok "", none⟩
    "missing.jpg").1 rfl

/-- Claim C1: the code contradicts the claimed pipeline. `process_image`
invokes `self.llm_agent.translate_text(extracted_text, 'hindi')` with two
positional arguments, while `LLMAgent.translate_text` requires four
(`target_language, text, text_context, scene`), so the call raises
`TypeError`, is caught at the orchestrator boundary, and for every image —
even when extraction, resizing and the description call all succeed — the
returned record is the partial error record: empty extracted text, empty
translations, empty description, and metadata without image dimensions. The
translation collaborator is never successfully invoked, with or without
scene and context. -/
theorem claim1_orchestrator_translate_bug (env : OrchEnv) (image_path : String)
    (r : String × Nat × Nat) (hres : env.resize = Except.ok r) :
    process_image env image_path =
      { image_name := pathName image_path
        metadata := { model_name := env.ollama.model
                      datetime := env.now
                      processing_time := env.elapsedFail
                      image_size := []
                      original_path := some image_path } } := by
  simp [process_image, hres, translate_text_two_args, bind, Except.bind]

/-- Witness for claim C1 at a fully-succeeding environment: extraction
finds text, resize succeeds, the description service succeeds, the
translation service is reachable — the result is still the partial record. -/
theorem claim1_orchestrator_translate_bug_witness :
    process_image
      ⟨⟨false, false, some FallbackMethod.tesseract⟩,
       ⟨true, some (480, 640), Except.ok true, Except.ok true, Except.ok ["hello"],
        Except.ok "hello", none⟩,
       Except.ok ("./data/temp/resized_photo.jpg", 640, 480),
       ⟨"sign text", "a street sign", "outdoor", "advertisement", "qwen3-vl:4b",
        true, none⟩,
       ⟨"llama3.1:latest", true, HttpOutcome.ok 200 "translated"⟩,
       "2026-10-12T00:00:00", 5, 3⟩
      "/imgs/photo.jpg" =
      { image_name := "photo.jpg"
        metadata := { model_name := "llama3.1:latest"
                      datetime := "2026-10-12T00:00:00"
                      processing_time := 3
                      image_size := []
                      original_path := some "/imgs/photo.jpg" } } := by
  exact claim1_orchestrator_translate_bug
    ⟨⟨false, false, some FallbackMethod.tesseract⟩,
     ⟨true, some (480, 640), Except.ok true, Except.ok true, Except.ok ["hello"],
      Except.ok "hello", none⟩,
     Except.ok ("./data/temp/resized_photo.jpg", 640, 480),
     ⟨"sign text", "a street sign", "outdoor", "advertisement", "qwen3-vl:4b",
      true, none⟩,
     ⟨"llama3.1:latest", true, HttpOutcome.ok 200 "translated"⟩,
     "2026-10-12T00:00:00", 5, 3⟩
    "/imgs/photo.jpg" ("./data/temp/resized_photo.jpg", 640, 480) rfl

/-- Claim C3: starting a batch on a non-empty image enumeration with any
pre-existing progress mapping registers a record with `total_images` equal
to the full enumeration count and `completed_images` pre-seeded to the
number of already-processed keys, and hands the background thread exactly
the enumerated images that are not keys of the progress store. -/
theorem claim3_resume_partition (folder batch_id : String) (images : List String)
    (m : List (String × String)) (hne : images ≠ []) :
    ∃ bp rem m0,
      process_folder folder batch_id true images (some (YamlContent.mapping m))
          = Except.ok (bp, rem, m0)
      ∧ bp.total_images = images.length
      ∧ bp.completed_images = ((m.map Prod.fst).dedup).length
      ∧ (∀ img : String, img ∈ rem ↔ (img ∈ images ∧ img ∉ m.map Prod.fst))
      ∧ bp.status = "pending"
      ∧ m0 = m := by
  have hemp : images.isEmpty = false := by
    cases images with
    | nil => exact absurd rfl hne
    | cons a l => rfl
  refine ⟨{ batch_id := batch_id
            folder_path := folder
            total_images := images.length
            completed_images := ((m.map Prod.fst).dedup).length
            failed_images := 0
            status := "pending"
            start_time := none
            end_time := none
            processed_files := (m.map Prod.fst).dedup
            failed_files := [] },
          images.filter (fun img => !(((m.map Prod.fst).dedup).contains img)), m,
          ?_, rfl, rfl, ?_, rfl, rfl⟩
  · simp [process_folder, hemp, load_progress]
  · intro img
    simp [List.mem_filter, List.contains, List.elem_iff, List.mem_dedup]

/-- Witness for claim C3: the concrete scenario — `a.jpg`, `b.jpg` already
keyed, folder enumerating `a.jpg`, `b.jpg`, `c.jpg`, `d.jpg`. -/
theorem claim3_resume_partition_witness :
    ∃ bp rem m0,
      process_folder "/photos" "batch-1" true
          ["/photos/a.jpg", "/photos/b.jpg", "/photos/c.jpg", "/photos/d.jpg"]
          (some (YamlContent.mapping [("/photos/a.jpg", "r1"), ("/photos/b.jpg", "r2")]))
          = Except.ok (bp, rem, m0)
      ∧ bp.total_images
          = (["/photos/a.jpg", "/photos/b.jpg", "/photos/c.jpg", "/photos/d.jpg"] :
              List String).length
      ∧ bp.completed_images
          = (([("/photos/a.jpg", "r1"), ("/photos/b.jpg", "r2")].map
                (@Prod.fst String String)).dedup).length
      ∧ (∀ img : String,
          img ∈ rem ↔
            (img ∈ ["/photos/a.jpg", "/photos/b.jpg", "/photos/c.jpg", "/photos/d.jpg"]
             ∧ img ∉ [("/photos/a.jpg", "r1"), ("/photos/b.jpg", "r2")].map
                 (@Prod.fst String String)))
      ∧ bp.status = "pending"
      ∧ m0 = [("/photos/a.jpg", "r1"), ("/photos/b.jpg", "r2")] :=
  claim3_resume_partition "/photos" "batch-1"
    ["/photos/a.jpg", "/photos/b.jpg", "/photos/c.jpg", "/photos/d.jpg"]
    [("/photos/a.jpg", "r1"), ("/photos/b.jpg", "r2")] (by decide)

/-! ### Helper lemmas about the progress mapping and the batch-thread loop -/

theorem mem_keys_dictInsert_self {Rec : Type} (m : List (String × Rec)) (k : String)
    (v : Rec) : k ∈ (dictInsert m k v).map Prod.fst := by
  unfold dictInsert
  by_cases h : m.any (fun p => p.1 = k)
  · rw [if_pos h]
    obtain ⟨p, pm, pk⟩ := List.any_eq_true.mp h
    have hpk : p.1 = k := of_decide_eq_true pk
    rw [List.map_map]
    exact List.mem_map.mpr ⟨p, pm, by simp [Function.comp, hpk]⟩
  · rw [if_neg h]
    simp

theorem mem_keys_dictInsert_of_mem {Rec : Type} {m : List (String × Rec)} {k' : String}
    (k : String) (v : Rec) (h : k' ∈ m.map Prod.fst) :
    k' ∈ (dictInsert m k v).map Prod.fst := by
  unfold dictInsert
  by_cases hc : m.any (fun p => p.1 = k)
  · rw [if_pos hc, List.map_map]
    obtain ⟨p, pm, rfl⟩ := List.mem_map.mp h
    refine List.mem_map.mpr ⟨p, pm, ?_⟩
    by_cases hp : p.1 = k
    · simp [Function.comp, hp]
    · simp [Function.comp, hp]
  · rw [if_neg hc, List.map_append]
    exact List.mem_append_left _ h

theorem run_loop_key_mono {Rec : Type} (interval : Nat) :
    ∀ (l : List (String × Option Rec)) (i : Nat) (st : ThreadState Rec) (k : String),
      k ∈ st.map.map Prod.fst → k ∈ (run_loop interval i st l).map.map Prod.fst := by
  intro l
  induction l with
  | nil => intro i st k hk; simpa [run_loop] using hk
  | cons x rest ih =>
      intro i st k hk
      obtain ⟨img, oc⟩ := x
      show k ∈ (run_loop interval (i + 1) (processOneImage interval st i img oc) rest).map.map
        Prod.fst
      apply ih
      cases oc with
      | none => simpa [processOneImage] using hk
      | some rec => simpa [processOneImage] using mem_keys_dictInsert_of_mem img rec hk

theorem run_loop_mem_key {Rec : Type} (interval : Nat) :
    ∀ (l : List (String × Option Rec)) (i : Nat) (st : ThreadState Rec) (img : String)
      (r : Rec), (img, some r) ∈ l →
      img ∈ (run_loop interval i st l).map.map Prod.fst := by
  intro l
  induction l with
  | nil => intro i st img r h; cases h
  | cons x rest ih =>
      intro i st img r h
      obtain ⟨img', oc⟩ := x
      rcases List.mem_cons.mp h with heq | htl
      · obtain ⟨h1, h2⟩ := Prod.mk.injEq .. ▸ heq
        subst h1
        cases h2
        show img ∈ (run_loop interval (i + 1)
          (processOneImage interval st i img (some r)) rest).map.map Prod.fst
        apply run_loop_key_mono
        simpa [processOneImage] using mem_keys_dictInsert_self st.map img r
      · exact ih (i + 1) _ img r htl

theorem run_loop_append {Rec : Type} (interval : Nat) :
    ∀ (l l' : List (String × Option Rec)) (i : Nat) (st : ThreadState Rec),
      run_loop interval i st (l ++ l')
        = run_loop interval (i + l.length) (run_loop interval i st l) l' := by
  intro l
  induction l with
  | nil => intro l' i st; simp [run_loop]
  | cons x rest ih =>
      intro l' i st
      obtain ⟨img, oc⟩ := x
      show run_loop interval (i + 1) (processOneImage interval st i img oc) (rest ++ l')
        = run_loop interval (i + (rest.length + 1)) _ l'
      rw [ih]
      congr 1
      omega

theorem processOneImage_batch_facts {Rec : Type} (interval : Nat) (st : ThreadState Rec)
    (i : Nat) (img : String) (oc : Option Rec) :
    (processOneImage interval st i img oc).batch.status = st.batch.status
    ∧ (processOneImage interval st i img oc).batch.total_images = st.batch.total_images
    ∧ (processOneImage interval st i img oc).batch.completed_images
        + (processOneImage interval st i img oc).batch.failed_images
        = st.batch.completed_images + st.batch.failed_images + 1
    ∧ (processOneImage interval st i img oc).obs
        = st.obs ++ [(processOneImage interval st i img oc).batch] := by
  cases oc with
  | none => refine ⟨rfl, rfl, ?_, rfl⟩; simp only [processOneImage]; omega
  | some rec => refine ⟨rfl, rfl, ?_, rfl⟩; simp only [processOneImage]; omega

theorem run_loop_batch_inv {Rec : Type} (interval : Nat) :
    ∀ (l : List (String × Option Rec)) (i : Nat) (st : ThreadState Rec),
      ((run_loop interval i st l).batch.status = st.batch.status
       ∧ (run_loop interval i st l).batch.total_images = st.batch.total_images
       ∧ (run_loop interval i st l).batch.completed_images
           + (run_loop interval i st l).batch.failed_images
           = st.batch.completed_images + st.batch.failed_images + l.length)
      ∧ ∀ b ∈ (run_loop interval i st l).obs,
          b ∈ st.obs
          ∨ (b.status = st.batch.status
             ∧ b.total_images = st.batch.total_images
             ∧ b.completed_images + b.failed_images
                 ≤ st.batch.completed_images + st.batch.failed_images + l.length) := by
  intro l
  induction l with
  | nil =>
      intro i st
      exact ⟨⟨rfl, rfl, by simp [run_loop]⟩, fun b hb => Or.inl (by simpa [run_loop] using hb)⟩
  | cons x rest ih =>
      intro i st
      obtain ⟨img, oc⟩ := x
      obtain ⟨hst, htot, hcnt, hobs⟩ :=
        processOneImage_batch_facts interval st i img oc
      obtain ⟨⟨ih1, ih2, ih3⟩, ih4⟩ := ih (i + 1) (processOneImage interval st i img oc)
      have hrun : run_loop interval i st ((img, oc) :: rest)
          = run_loop interval (i + 1) (processOneImage interval st i img oc) rest := rfl
      rw [hrun]
      refine ⟨⟨ih1.trans hst, ih2.trans htot, ?_⟩, ?_⟩
      · simp only [List.length_cons]
        omega
      · intro b hb
        rcases ih4 b hb with hmem | ⟨hb1, hb2, hb3⟩
        · rw [hobs] at hmem
          rcases List.mem_append.mp hmem with h | h
          · exact Or.inl h
          · have hb' : b = (processOneImage interval st i img oc).batch := by
              simpa using h
            subst hb'
            refine Or.inr ⟨hst, htot, ?_⟩
            simp only [List.length_cons]
            omega
        · refine Or.inr ⟨hb1.trans hst, hb2.trans htot, ?_⟩
          simp only [List.length_cons]
          omega

theorem filter_contains_length {K images : List String}
    (hnodupI : images.Nodup) (hnodupK : K.Nodup) (hsub : ∀ k ∈ K, k ∈ images) :
    (images.filter (fun img => K.contains img)).length = K.length := by
  have hfn : (images.filter (fun img => K.contains img)).Nodup := hnodupI.filter _
  have hmem : ∀ x, x ∈ images.filter (fun img => K.contains img) ↔ x ∈ K := by
    intro x
    rw [List.mem_filter]
    constructor
    · rintro ⟨-, hx⟩
      exact List.elem_iff.mp hx
    · intro hx
      exact ⟨hsub x hx, List.elem_iff.mpr hx⟩
  have hfin : (images.filter (fun img => K.contains img)).toFinset = K.toFinset := by
    ext x
    simp only [List.mem_toFinset]
    exact hmem x
  calc (images.filter (fun img => K.contains img)).length
      = (images.filter (fun img => K.contains img)).toFinset.card :=
        (List.toFinset_card_of_nodup hfn).symm
    _ = K.toFinset.card := by rw [hfin]
    _ = K.length := List.toFinset_card_of_nodup hnodupK

theorem remaining_length {K images : List String}
    (hnodupI : images.Nodup) (hnodupK : K.Nodup) (hsub : ∀ k ∈ K, k ∈ images) :
    K.length + (images.filter (fun img => !(K.contains img))).length = images.length := by
  have h := @List.length_eq_length_filter_add _ images (fun img => K.contains img)
  rw [filter_contains_length hnodupI hnodupK hsub] at h
  omega

theorem thread_obs_inv {Rec : Type} (interval : Nat) (bp : BatchProgress)
    (remaining : List String) (m0 : List (String × Rec))
    (disk0 : Option (YamlContent Rec)) (outcomes : List (Option Rec)) (t0 t1 : String)
    (hfull : bp.completed_images + bp.failed_images + (remaining.zip outcomes).length
        = bp.total_images)
    (hpend : bp.status = "pending") :
    ∀ b ∈ (process_batch_thread interval bp remaining m0 disk0 outcomes t0 t1).obs,
      b.completed_images + b.failed_images ≤ b.total_images
      ∧ (b.status = "completed" →
          b.completed_images + b.failed_images = b.total_images) := by
  intro b hb
  obtain ⟨⟨hs1, hs2, hs3⟩, hobs⟩ :=
    @run_loop_batch_inv Rec interval (remaining.zip outcomes) 0
      { batch := { bp with status := "processing", start_time := some t0 }
        map := m0
        disk := disk0
        obs := [bp, { bp with status := "processing", start_time := some t0 }]
        saves := [] }
  simp only at hs1 hs2 hs3 hobs
  have hobs_eq : (process_batch_thread interval bp remaining m0 disk0 outcomes t0 t1).obs
      = (run_loop interval 0
          ({ batch := { bp with status := "processing", start_time := some t0 }
             map := m0
             disk := disk0
             obs := [bp, { bp with status := "processing", start_time := some t0 }]
             saves := [] } : ThreadState Rec) (remaining.zip outcomes)).obs
        ++ [{ (run_loop interval 0
              ({ batch := { bp with status := "processing", start_time := some t0 }
                 map := m0
                 disk := disk0
                 obs := [bp, { bp with status := "processing", start_time := some t0 }]
                 saves := [] } : ThreadState Rec) (remaining.zip outcomes)).batch
              with status := "completed", end_time := some t1 }] := rfl
  rw [hobs_eq] at hb
  rcases List.mem_append.mp hb with hb' | hb'
  · rcases hobs b hb' with hmem | ⟨hq1, hq2, hq3⟩
    · have hmem' : b = bp
          ∨ b = { bp with status := "processing", start_time := some t0 } := by
        simpa using hmem
      rcases hmem' with rfl | rfl
      · refine ⟨by omega, fun hcon => ?_⟩
        rw [hpend] at hcon
        exact absurd hcon (by decide)
      · refine ⟨?_, fun hcon => ?_⟩
        · simp only
          omega
        · simp only at hcon
          exact absurd hcon (by decide)
    · refine ⟨?_, fun hcon => ?_⟩
      · rw [hq2]
        omega
      · rw [hq1] at hcon
        exact absurd hcon (by decide)
  · have hb'' : b = { (run_loop interval 0
        ({ batch := { bp with status := "processing", start_time := some t0 }
           map := m0
           disk := disk0
           obs := [bp, { bp with status := "processing", start_time := some t0 }]
           saves := [] } : ThreadState Rec) (remaining.zip outcomes)).batch
        with status := "completed", end_time := some t1 } := by
      simpa using hb'
    subst hb''
    refine ⟨?_, fun _ => ?_⟩ <;>
    · simp only
      omega

/-- Claim C2, as stated, is false on two counts. First, `completed_images`
is pre-seeded to the number of all progress-store keys, including keys that
are not in the current enumeration, so with a stale key the invariant
`completed_images + failed_images <= total_images` is violated: resuming a
one-image folder against a store keyed by a different (deleted) image ends
with `completed_images = 2`, `failed_images = 0`, `total_images = 1` and
status `"completed"` — which also violates the `==`-exactly-at-`completed`
direction. Second, equality holds at observable points before completion
(already at the `"pending"` registration in this run). -/
theorem claim2_count_invariant_counterexample :
    (run_batch 5 "/photos" "batch-1" true ["/photos/a.jpg"]
        (some (YamlContent.mapping [("/photos/x.jpg", "r0")]))
        [some "r1"] "t0" "t1").toOption.map
      (fun st => st.obs.map
        (fun b => (b.status, b.completed_images, b.failed_images, b.total_images)))
      = some [("pending", 1, 0, 1), ("processing", 1, 0, 1),
              ("processing", 2, 0, 1), ("completed", 2, 0, 1)] := by
  decide

/-- Claim C2 amended: provided the progress store's keys are all among the
(duplicate-free) enumerated images, then at every observable point during
and after a batch `completed_images + failed_images <= total_images`, and
`status == completed` implies `completed_images + failed_images ==
total_images`. The converse implication does not hold (equality is already
observable at registration for a fully resumed batch), and without the
key-subset condition the inequality itself can fail. -/
theorem claim2_count_invariant_amended (interval : Nat) (folder batch_id t0 t1 : String)
    (images : List String) (m : List (String × String)) (outcomes : List (Option String))
    (hnodup : images.Nodup)
    (hsub : ∀ k ∈ m.map Prod.fst, k ∈ images)
    (hne : images ≠ [])
    (hlen : outcomes.length
        = (images.filter
            (fun img => !(((m.map Prod.fst).dedup).contains img))).length) :
    ∃ st, run_batch interval folder batch_id true images
        (some (YamlContent.mapping m)) outcomes t0 t1 = Except.ok st
      ∧ ∀ b ∈ st.obs,
          b.completed_images + b.failed_images ≤ b.total_images
          ∧ (b.status = "completed" →
              b.completed_images + b.failed_images = b.total_images) := by
  have hemp : images.isEmpty = false := by
    cases images with
    | nil => exact absurd rfl hne
    | cons a l => rfl
  have hsubK : ∀ k ∈ (m.map Prod.fst).dedup, k ∈ images :=
    fun k hk => hsub k (List.mem_dedup.mp hk)
  have hKnd : ((m.map Prod.fst).dedup).Nodup := List.nodup_dedup _
  have hT : ((m.map Prod.fst).dedup).length
      + (images.filter
          (fun img => !(((m.map Prod.fst).dedup).contains img))).length
      = images.length := remaining_length hnodup hKnd hsubK
  refine ⟨process_batch_thread interval
      { batch_id := batch_id
        folder_path := folder
        total_images := images.length
        completed_images := ((m.map Prod.fst).dedup).length
        failed_images := 0
        status := "pending"
        start_time := none
        end_time := none
        processed_files := (m.map Prod.fst).dedup
        failed_files := [] }
      (images.filter (fun img => !(((m.map Prod.fst).dedup).contains img)))
      m (some (YamlContent.mapping m)) outcomes t0 t1, ?_, ?_⟩
  · unfold run_batch process_folder
    rw [hemp]
    simp [load_progress]
  · apply thread_obs_inv
    · show ((m.map Prod.fst).dedup).length + 0
          + ((images.filter
              (fun img => !(((m.map Prod.fst).dedup).contains img))).zip outcomes).length
          = images.length
      rw [List.length_zip, hlen, Nat.min_self]
      omega
    · rfl

/-- Witness for the amended claim C2: a fresh two-image batch, one success
and one per-image failure. -/
theorem claim2_count_invariant_amended_witness :
    ∃ st, run_batch 5 "/photos" "batch-1" true ["/photos/a.jpg", "/photos/b.jpg"]
        (some (YamlContent.mapping [])) [some "r1", none] "t0" "t1" = Except.ok st
      ∧ ∀ b ∈ st.obs,
          b.completed_images + b.failed_images ≤ b.total_images
          ∧ (b.status = "completed" →
              b.completed_images + b.failed_images = b.total_images) :=
  claim2_count_invariant_amended 5 "/photos" "batch-1" "t0" "t1"
    ["/photos/a.jpg", "/photos/b.jpg"] [] [some "r1", none]
    (by decide) (by simp) (by decide) (by decide)

/-- Claim C6, as stated, is false: the checkpoint save sits inside the
per-image try-block after the success path, so when the image at a
checkpoint boundary fails no flush happens for that interval. With
`checkpoint_interval = 2` in a batch whose remaining images number 3
(size greater than the interval), if the second image fails then after
processing exactly 2 images no flush has occurred and the disk is unchanged
— here still missing entirely, containing 0 entries rather than the claimed
2. -/
theorem claim6_checkpoint_counterexample :
    (run_loop 2 0
        ({ batch := { batch_id := "b1", folder_path := "/photos", total_images := 3,
                      completed_images := 0, failed_images := 0, status := "processing",
                      start_time := some "t0", end_time := none, processed_files := [],
                      failed_files := [] }
           map := [], disk := none, obs := [], saves := [] } : ThreadState String)
        [("/photos/a.jpg", some "r1"), ("/photos/b.jpg", none)]).saves = []
    ∧ (run_loop 2 0
        ({ batch := { batch_id := "b1", folder_path := "/photos", total_images := 3,
                      completed_images := 0, failed_images := 0, status := "processing",
                      start_time := some "t0", end_time := none, processed_files := [],
                      failed_files := [] }
           map := [], disk := none, obs := [], saves := [] } : ThreadState String)
        [("/photos/a.jpg", some "r1"), ("/photos/b.jpg", none)]).disk = none
    ∧ (run_loop 2 0
        ({ batch := { batch_id := "b1", folder_path := "/photos", total_images := 3,
                      completed_images := 0, failed_images := 0, status := "processing",
                      start_time := some "t0", end_time := none, processed_files := [],
                      failed_files := [] }
           map := [], disk := none, obs := [], saves := [] } : ThreadState String)
        [("/photos/a.jpg", some "r1"), ("/photos/b.jpg", none)]).batch.completed_images
      + (run_loop 2 0
        ({ batch := { batch_id := "b1", folder_path := "/photos", total_images := 3,
                      completed_images := 0, failed_images := 0, status := "processing",
                      start_time := some "t0", end_time := none, processed_files := [],
                      failed_files := [] }
           map := [], disk := none, obs := [], saves := [] } : ThreadState String)
        [("/photos/a.jpg", some "r1"), ("/photos/b.jpg", none)]).batch.failed_images
      = 2 := by
  decide

/-- Claim C6 amended: a checkpoint flush occurs after a loop iteration
exactly when its 1-based index is a multiple of `checkpoint_interval` and
the image processed successfully — a failed iteration never flushes — and
one further flush of the full mapping always occurs after the loop.
Consequently, if the first `checkpoint_interval` remaining images all
process successfully, then immediately after them the progress store on
disk is the current mapping and it contains an entry for each of those
images. -/
theorem claim6_checkpoint_amended (interval : Nat) (hN : 1 ≤ interval)
    (st0 : ThreadState String) (l : List (String × Option String))
    (hlen : l.length = interval) (hsucc : ∀ p ∈ l, p.2.isSome)
    (bp : BatchProgress) (rem : List String) (m0 : List (String × String))
    (d0 : Option (YamlContent String)) (ocs : List (Option String)) (t0 t1 : String) :
    ((run_loop interval 0 st0 l).disk
        = some (YamlContent.mapping (run_loop interval 0 st0 l).map)
      ∧ ∀ p ∈ l, p.1 ∈ (run_loop interval 0 st0 l).map.map Prod.fst)
    ∧ (∀ (st : ThreadState String) (i : Nat) (img : String),
        (processOneImage interval st i img none).saves = st.saves
        ∧ (processOneImage interval st i img none).disk = st.disk)
    ∧ (∀ (st : ThreadState String) (i : Nat) (img : String) (r : String),
        (i + 1) % interval = 0 →
          (processOneImage interval st i img (some r)).disk
            = some (YamlContent.mapping (dictInsert st.map img r))
          ∧ (processOneImage interval st i img (some r)).saves
            = st.saves ++ [dictInsert st.map img r])
    ∧ (∃ mF, (process_batch_thread interval bp rem m0 d0 ocs t0 t1).disk
          = some (YamlContent.mapping mF)
        ∧ (process_batch_thread interval bp rem m0 d0 ocs t0 t1).saves.getLast?
            = some mF) := by
  refine ⟨⟨?_, ?_⟩, ?_, ?_, ?_⟩
  · rcases List.eq_nil_or_concat' l with rfl | ⟨l', x, rfl⟩
    · exact absurd hlen (by simpa using Nat.ne_of_lt (by omega))
    · obtain ⟨r, hr⟩ := Option.isSome_iff_exists.mp
        (hsucc x (List.mem_append_right _ (List.mem_singleton_self x)))

      have hxx : x = (x.1, some r) := by
        rw [← hr]
      have hmod : (l'.length + 1) % interval = 0 := by
        have hli : l'.length + 1 = interval := by
          simpa using hlen
        simp only [hli, Nat.mod_self]
      rw [run_loop_append interval l' [x] 0 st0, hxx]
      show (processOneImage interval (run_loop interval 0 st0 l') (0 + l'.length)
          x.1 (some r)).disk
        = some (YamlContent.mapping (processOneImage interval
            (run_loop interval 0 st0 l') (0 + l'.length) x.1 (some r)).map)
      simp [processOneImage, hmod, save_progress]
  · intro p hp
    obtain ⟨r', hr'⟩ := Option.isSome_iff_exists.mp (hsucc p hp)
    have hpe : (p.1, some r') = p := by
      rw [← hr']
    rw [← hpe] at hp
    exact run_loop_mem_key interval l 0 st0 p.1 r' hp
  · intro st i img
    exact ⟨rfl, rfl⟩
  · intro st i img r hmod
    constructor
    · show (if (i + 1) % interval = 0 then save_progress (dictInsert st.map img r)
          else st.disk) = some (YamlContent.mapping (dictInsert st.map img r))
      rw [if_pos hmod]
      rfl
    · show st.saves ++ (if (i + 1) % interval = 0
          then [dictInsert st.map img r] else []) = st.saves ++ [dictInsert st.map img r]
      rw [if_pos hmod]
  · exact ⟨_, rfl, List.getLast?_concat _⟩

/-- Witness for the amended claim C6 at interval 2 with two successful
images. -/
theorem claim6_checkpoint_amended_witness :
    ((run_loop 2 0
        ({ batch := { batch_id := "b1", folder_path := "/photos", total_images := 2,
                      completed_images := 0, failed_images := 0, status := "processing",
                      start_time := some "t0", end_time := none, processed_files := [],
                      failed_files := [] }
           map := [], disk := none, obs := [], saves := [] } : ThreadState String)
        [("/photos/a.jpg", some "r1"), ("/photos/b.jpg", some "r2")]).disk
        = some (YamlContent.mapping (run_loop 2 0
            ({ batch := { batch_id := "b1", folder_path := "/photos", total_images := 2,
                          completed_images := 0, failed_images := 0,
                          status := "processing", start_time := some "t0",
                          end_time := none, processed_files := [], failed_files := [] }
               map := [], disk := none, obs := [], saves := [] } : ThreadState String)
            [("/photos/a.jpg", some "r1"), ("/photos/b.jpg", some "r2")]).map)
      ∧ ∀ p ∈ ([("/photos/a.jpg", some "r1"), ("/photos/b.jpg", some "r2")] :
            List (String × Option String)),
          p.1 ∈ (run_loop 2 0
            ({ batch := { batch_id := "b1", folder_path := "/photos", total_images := 2,
                          completed_images := 0, failed_images := 0,
                          status := "processing", start_time := some "t0",
                          end_time := none, processed_files := [], failed_files := [] }
               map := [], disk := none, obs := [], saves := [] } : ThreadState String)
            [("/photos/a.jpg", some "r1"), ("/photos/b.jpg", some "r2")]).map.map
              Prod.fst)
    ∧ (∀ (st : ThreadState String) (i : Nat) (img : String),
        (processOneImage 2 st i img none).saves = st.saves
        ∧ (processOneImage 2 st i img none).disk = st.disk)
    ∧ (∀ (st : ThreadState String) (i : Nat) (img : String) (r : String),
        (i + 1) % 2 = 0 →
          (processOneImage 2 st i img (some r)).disk
            = some (YamlContent.mapping (dictInsert st.map img r))
          ∧ (processOneImage 2 st i img (some r)).saves
            = st.saves ++ [dictInsert st.map img r])
    ∧ (∃ mF, (process_batch_thread 2
          { batch_id := "b1", folder_path := "/photos", total_images := 2,
            completed_images := 0, failed_images := 0, status := "pending",
            start_time := none, end_time := none, processed_files := [],
            failed_files := [] }
          ["/photos/a.jpg", "/photos/b.jpg"] [] none [some "r1", some "r2"]
          "t0" "t1").disk = some (YamlContent.mapping mF)
        ∧ (process_batch_thread 2
          { batch_id := "b1", folder_path := "/photos", total_images := 2,
            completed_images := 0, failed_images := 0, status := "pending",
            start_time := none, end_time := none, processed_files := [],
            failed_files := [] }
          ["/photos/a.jpg", "/photos/b.jpg"] [] none [some "r1", some "r2"]
          "t0" "t1").saves.getLast? = some mF) :=
  claim6_checkpoint_amended 2 (by decide)
    ({ batch := { batch_id := "b1", folder_path := "/photos", total_images := 2,
                  completed_images := 0, failed_images := 0, status := "processing",
                  start_time := some "t0", end_time := none, processed_files := [],
                  failed_files := [] }
       map := [], disk := none, obs := [], saves := [] } : ThreadState String)
    [("/photos/a.jpg", some "r1"), ("/photos/b.jpg", some "r2")]
    (by decide) (by decide)
    { batch_id := "b1", folder_path := "/photos", total_images := 2,
      completed_images := 0, failed_images := 0, status := "pending",
      start_time := none, end_time := none, processed_files := [], failed_files := [] }
    ["/photos/a.jpg", "/photos/b.jpg"] [] none [some "r1", some "r2"] "t0" "t1"

end DeepSight
